import Mathlib

/-!
Verification model of `src/network/udt_socket.cpp` from the bitshares fc library.

The file under scrutiny implements a UDT-based socket (`udt_socket`) and a
shared epoll service (`udt_epoll_service`).  The UDT library itself is an
external collaborator: each of its primitive calls (`UDT::recv`, `UDT::send`,
`UDT::connect`, `UDT::close`, `UDT::epoll_add_usock`, `UDT::epoll_wait`) is
modelled by an outcome value the environment supplies (the integer the call
returns, plus the content of UDT's global last-error slot immediately after
the call).  The fc wrapper code itself is translated statement by statement.
-/

namespace UdtModel

/-- `UDT::ERROR` (the sentinel returned by failing UDT primitives). -/
def UDT_ERROR : Int := -1

/-- `UDT::INVALID_SOCK` (descriptor sentinel before `open()` succeeds). -/
def INVALID_SOCK : Int := -1

/-- `CUDTException::EASYNCRCV` — UDT's would-block code for a non-blocking
receive that has no data available. -/
def EASYNCRCV : Nat := 6002

/-- The C++ conversion applied by `return bytes_read;` in `readsome` and
`return bytes_sent;` in `writesome`: the `int` result of the UDT primitive is
converted to the unsigned 64-bit `size_t` return type, i.e. taken mod 2^64. -/
def toSize (i : Int) : Nat := (i % (2 : Int) ^ 64).toNat

/-- Content of UDT's global last-error slot (`UDT::getlasterror()`):
`code` is `getErrorCode()` (0 = no error) and `message` is
`getErrorMessage()`. -/
structure ErrorInfo where
  code : Nat
  message : String
deriving DecidableEq

/-- `fc::ip::endpoint` reduced to the fields `connect_to` reads: a 32-bit
address and a port. -/
structure ip_endpoint where
  addr : Nat
  port : Nat
deriving DecidableEq

/-- One piece of context captured by the `FC_CAPTURE_AND_THROW` /
`FC_CAPTURE_AND_RETHROW` macros: the captured error message, the remote
endpoint captured by `connect_to`, or the requested length captured by
`readsome`. -/
inductive CtxItem where
  | errMsg (s : String)
  | remoteEp (e : ip_endpoint)
  | maxLen (n : Nat)
deriving DecidableEq

/-- `fc::udt_exception` as thrown by `FC_CAPTURE_AND_THROW( udt_exception,
(error_message) )` and enriched by each `FC_CAPTURE_AND_RETHROW` on the way
out: a message plus the list of captured context items. -/
structure udt_exception where
  message : String
  context : List CtxItem
deriving DecidableEq

/-- `fc::check_udt_errors` (udt_socket.cpp lines 105-114): reads the global
last-error slot; when the code is nonzero it clears the slot and throws a
`udt_exception` capturing the error message; otherwise it returns normally. -/
def check_udt_errors (e : ErrorInfo) : Except udt_exception Unit :=
  if e.code ≠ 0 then
    .error { message := e.message, context := [CtxItem.errMsg e.message] }
  else
    .ok ()

/-- Outcome of one UDT primitive call as supplied by the environment:
`result` is the integer the call returns, `err` is the content of the global
last-error slot immediately after the call. -/
structure PrimOutcome where
  result : Int
  err : ErrorInfo
deriving DecidableEq

/-- The state of a `udt_socket` handle: the sole data member
`_udt_socket_id`.  Note the source declares no eof flag and no other
mutable state in this translation unit. -/
structure udt_socket where
  _udt_socket_id : Int
deriving DecidableEq

/-- The default constructor (lines 116-119): initialises the descriptor to
`UDT::INVALID_SOCK`. -/
def udt_socket.construct : udt_socket := { _udt_socket_id := INVALID_SOCK }

/-- `udt_socket::open` (lines 209-212): assigns a fresh descriptor obtained
from `UDT::socket(AF_INET, SOCK_STREAM, 0)`; `newSock` is the descriptor the
library returns. (`open` is a Lean keyword, hence the primed name.) -/
def udt_socket.open' (_s : udt_socket) (newSock : Int) : udt_socket :=
  { _udt_socket_id := newSock }

/-- `udt_socket::is_open` (lines 214-217): `_udt_socket_id != UDT::INVALID_SOCK`. -/
def udt_socket.is_open (s : udt_socket) : Bool :=
  s._udt_socket_id != INVALID_SOCK

/-- `udt_socket::eof` (lines 177-181): the body is a `TODO` comment followed
by `return false;`. -/
def udt_socket.eof (_s : udt_socket) : Bool := false

/-- Observable actions a socket operation performs against the UDT library
and the task system.  `registerRead` / `registerWrite` / `suspendTask` are
the actions the would-block protocol would perform; they are listed so their
absence from a trace is expressible. -/
inductive SockAction where
  | recvCall (sock : Int) (maxLen : Nat)
  | sendCall (sock : Int) (len : Nat)
  | closeCall (sock : Int)
  | connectCall (sock : Int) (ep : ip_endpoint)
  | allocCall
  | registerRead (sock : Int)
  | registerWrite (sock : Int)
  | suspendTask
deriving DecidableEq

instance {ε α : Type} [DecidableEq ε] [DecidableEq α] : DecidableEq (Except ε α) :=
  fun a b =>
    match a, b with
    | .ok x, .ok y =>
        if h : x = y then .isTrue (by rw [h])
        else .isFalse (by intro hc; cases hc; exact h rfl)
    | .error x, .error y =>
        if h : x = y then .isTrue (by rw [h])
        else .isFalse (by intro hc; cases hc; exact h rfl)
    | .ok _, .error _ => .isFalse (fun hc => Except.noConfusion hc)
    | .error _, .ok _ => .isFalse (fun hc => Except.noConfusion hc)

/-- Result of running one socket operation: the trace of actions it
performed, its return value or thrown exception, and the handle state it
leaves behind. -/
structure SockStep (α : Type) where
  trace : List SockAction
  result : Except udt_exception α
  state : udt_socket
deriving DecidableEq

/-- `udt_socket::readsome` (lines 161-175).  `o` is the outcome of the
`UDT::recv` call.  The would-block branch (`EASYNCRCV`) is empty in the
source — it holds only the comment "create a future and post to epoll, wait
on it, then call readsome recursively" — so control falls through to
`return bytes_read;`.  The whole body is wrapped in
`FC_CAPTURE_AND_RETHROW( (max) )`. -/
def udt_socket.readsome (s : udt_socket) (max : Nat) (o : PrimOutcome) : SockStep Nat :=
  let bytes_read := o.result
  let tr := [SockAction.recvCall s._udt_socket_id max]
  if bytes_read = UDT_ERROR then
    if o.err.code = EASYNCRCV then
      -- empty branch in the source; falls through to the return statement
      { trace := tr, result := .ok (toSize bytes_read), state := s }
    else
      match check_udt_errors o.err with
      | .error e =>
          { trace := tr,
            result := .error { e with context := e.context ++ [CtxItem.maxLen max] },
            state := s }
      | .ok _ => { trace := tr, result := .ok (toSize bytes_read), state := s }
  else
    { trace := tr, result := .ok (toSize bytes_read), state := s }

/-- `udt_socket::writesome` (lines 186-198).  `o` is the outcome of the
`UDT::send` call.  The zero-bytes-accepted branch is empty in the source —
it holds only the comment "schedule wait with epoll" — and there is no
`FC_CAPTURE_AND_RETHROW` wrapper on this function. -/
def udt_socket.writesome (s : udt_socket) (len : Nat) (o : PrimOutcome) : SockStep Nat :=
  let bytes_sent := o.result
  let tr := [SockAction.sendCall s._udt_socket_id len]
  if UDT_ERROR = bytes_sent then
    match check_udt_errors o.err with
    | .error e => { trace := tr, result := .error e, state := s }
    | .ok _ =>
        if bytes_sent = 0 then
          -- empty branch in the source
          { trace := tr, result := .ok (toSize bytes_sent), state := s }
        else
          { trace := tr, result := .ok (toSize bytes_sent), state := s }
  else
    if bytes_sent = 0 then
      -- empty branch in the source
      { trace := tr, result := .ok (toSize bytes_sent), state := s }
    else
      { trace := tr, result := .ok (toSize bytes_sent), state := s }

/-- `udt_socket::close` (lines 202-206): calls `UDT::close(_udt_socket_id)`
(return value not inspected; only `o.err`, the last-error slot afterwards,
matters), then `check_udt_errors()`, wrapped in `FC_CAPTURE_AND_RETHROW()`.
The member `_udt_socket_id` is never reassigned. -/
def udt_socket.close (s : udt_socket) (o : PrimOutcome) : SockStep Unit :=
  let tr := [SockAction.closeCall s._udt_socket_id]
  match check_udt_errors o.err with
  | .error e => { trace := tr, result := .error e, state := s }
  | .ok _ => { trace := tr, result := .ok (), state := s }

/-- `udt_socket::~udt_socket` (lines 121-124): the body is the single
statement `close();`. -/
def udt_socket.destructor (s : udt_socket) (o : PrimOutcome) : SockStep Unit :=
  udt_socket.close s o

/-- `udt_socket::connect_to` (lines 126-137): builds the sockaddr (address
normalisation does not affect control flow), calls `UDT::connect`, and on
`UDT::ERROR` calls `check_udt_errors()`; the body is wrapped in
`FC_CAPTURE_AND_RETHROW( (remote_endpoint) )`. -/
def udt_socket.connect_to (s : udt_socket) (remote_endpoint : ip_endpoint)
    (o : PrimOutcome) : SockStep Unit :=
  let tr := [SockAction.connectCall s._udt_socket_id remote_endpoint]
  if o.result = UDT_ERROR then
    match check_udt_errors o.err with
    | .error e =>
        { trace := tr,
          result := .error { e with context := e.context ++ [CtxItem.remoteEp remote_endpoint] },
          state := s }
    | .ok _ => { trace := tr, result := .ok (), state := s }
  else
    { trace := tr, result := .ok (), state := s }

/-- `udt_socket::open` (lines 209-212) with the allocation outcome made
explicit: the body is the single assignment
`_udt_socket_id = UDT::socket(AF_INET, SOCK_STREAM, 0);`.
`alloc.result` is the descriptor `UDT::socket` returns (`INVALID_SOCK` on
failure) and `alloc.err` the last-error slot afterwards; the source inspects
neither — there is no `check_udt_errors` call and no throw on this path. -/
def udt_socket.open_step (_s : udt_socket) (alloc : PrimOutcome) : SockStep Unit :=
  { trace := [SockAction.allocCall],
    result := .ok (),
    state := { _udt_socket_id := alloc.result } }

/-! ## The epoll service (`udt_epoll_service`) -/

/-- The registration maps `_read_promises` / `_write_promises` are
`std::unordered_map<int, promise<void>::ptr>`: modelled as association lists
from descriptor to a promise identifier, with unique keys. -/
abbrev PromiseMap := List (Int × Nat)

/-- Map lookup (`find`): the value stored under `k`, if any. -/
def mapFind (k : Int) : PromiseMap → Option Nat
  | [] => none
  | (k', v) :: rest => if k' = k then some v else mapFind k rest

/-- Map erase (`erase(itr)` on the entry found for `k`): removes the first
entry keyed `k`, which with unique keys is the only one. -/
def mapErase (k : Int) : PromiseMap → PromiseMap
  | [] => []
  | (k', v) :: rest => if k' = k then rest else (k', v) :: mapErase k rest

/-- Map store (`m[k] = v` via `operator[]`): replaces the value under `k`,
or appends a new entry. -/
def mapStore (k : Int) (v : Nat) : PromiseMap → PromiseMap
  | [] => [(k, v)]
  | (k', v') :: rest => if k' = k then (k, v) :: rest else (k', v') :: mapStore k v rest

/-- The keys of a map are pairwise distinct — the `std::unordered_map`
representation invariant. -/
def goodMap (m : PromiseMap) : Prop := (m.map Prod.fst).Nodup

instance (m : PromiseMap) : Decidable (goodMap m) := by
  unfold goodMap; infer_instance

/-- State of `udt_epoll_service` relevant to registration and polling: the
two promise maps (lines 93-96). -/
structure udt_epoll_service where
  _read_promises : PromiseMap
  _write_promises : PromiseMap
deriving DecidableEq

/-- One step of the `for( auto sock : ..._ready )` loops inside `poll_loop`
(lines 39-47 and 51-58): look the descriptor up in the map; if present, call
`set_value()` on its promise (recorded in the fulfilled list) and erase the
entry; otherwise do nothing. -/
def fulfillOne (acc : List Nat × PromiseMap) (sock : Int) : List Nat × PromiseMap :=
  match mapFind sock acc.2 with
  | some p => (acc.1 ++ [p], mapErase sock acc.2)
  | none => acc

/-- Processing of one ready set against one promise map, i.e. one whole
`synchronized` block of `poll_loop`: fold `fulfillOne` over the ready
descriptors.  Returns the promises fulfilled and the map left behind. -/
def processReady (ready : List Int) (m : PromiseMap) : List Nat × PromiseMap :=
  ready.foldl fulfillOne ([], m)

/-- One iteration of the `while` body of `poll_loop` (lines 31-60), given
the read-ready and write-ready sets reported by `UDT::epoll_wait`: the read
block runs against `_read_promises` under its own mutex, then the write
block against `_write_promises` under its own mutex.  Returns the promises
fulfilled in each direction and the new service state. -/
def poll_iteration (read_ready write_ready : List Int) (svc : udt_epoll_service) :
    (List Nat × List Nat) × udt_epoll_service :=
  let r := processReady read_ready svc._read_promises
  let w := processReady write_ready svc._write_promises
  ((r.1, w.1), { _read_promises := r.2, _write_promises := w.2 })

/-- `udt_epoll_service::poll_loop` (lines 27-62), fuel-bounded.  `canceled i`
is the value `_epoll_loop.canceled()` returns when the `while` condition is
evaluated for the `i`-th time; `events i` are the ready sets `epoll_wait`
reports in iteration `i`.  The first component of the result records every
observation of the cancellation flag, in order — by construction the flag is
consulted exactly once per loop entry. -/
def poll_loop : Nat → Nat → (Nat → Bool) → (Nat → List Int × List Int) →
    udt_epoll_service → List Bool × udt_epoll_service
  | 0, _, _, _, svc => ([], svc)
  | fuel + 1, i, canceled, events, svc =>
    if canceled i then ([true], svc)
    else
      let step := poll_iteration (events i).1 (events i).2 svc
      let rest := poll_loop fuel (i + 1) canceled events step.2
      (false :: rest.1, rest.2)

/-- `udt_epoll_service::notify_read` (lines 64-77): calls
`UDT::epoll_add_usock` — whose outcome `o` (return value and error slot) the
source never inspects — then stores the promise under the descriptor in
`_read_promises` under the read mutex.  The `Except` return type records
whether any `udt_exception` escapes to the caller. -/
def udt_epoll_service.notify_read (svc : udt_epoll_service) (udt_socket_id : Int)
    (p : Nat) (_o : PrimOutcome) : Except udt_exception udt_epoll_service :=
  .ok { svc with _read_promises := mapStore udt_socket_id p svc._read_promises }

/-- `udt_epoll_service::notify_write` (lines 79-90): same shape as
`notify_read`, against `_write_promises`. -/
def udt_epoll_service.notify_write (svc : udt_epoll_service) (udt_socket_id : Int)
    (p : Nat) (_o : PrimOutcome) : Except udt_exception udt_epoll_service :=
  .ok { svc with _write_promises := mapStore udt_socket_id p svc._write_promises }

/-- Actions the service lifecycle code can perform against the loop task and
the UDT multiplexer.  `waitForLoop` and `epollRelease` are listed so that
their absence from the destructor's trace is expressible. -/
inductive ServiceAction where
  | cancelLoop
  | waitForLoop
  | epollRelease
deriving DecidableEq

/-- `udt_epoll_service::~udt_epoll_service` (lines 22-25): the body is the
single statement `_epoll_loop.cancel();`.  No wait on the loop and no
`UDT::epoll_release` call appear anywhere in the translation unit. -/
def udt_epoll_service.destructorBody : List ServiceAction := [ServiceAction.cancelLoop]

/-! ## Helper lemmas about the promise maps and the poll fold -/

theorem mapFind_mapErase_ne (d k : Int) (m : PromiseMap) (h : d ≠ k) :
    mapFind d (mapErase k m) = mapFind d m := by
  induction m with
  | nil => rfl
  | cons kv rest ih =>
    obtain ⟨k', v⟩ := kv
    simp only [mapErase]
    by_cases hk : k' = k
    · rw [if_pos hk]
      simp only [mapFind]
      rw [if_neg (fun h2 : k' = d => h (h2 ▸ hk))]
    · rw [if_neg hk]
      simp only [mapFind]
      by_cases hd : k' = d
      · rw [if_pos hd, if_pos hd]
      · rw [if_neg hd, if_neg hd, ih]

theorem mapFind_notMem_keys (d : Int) (m : PromiseMap)
    (h : d ∉ m.map Prod.fst) : mapFind d m = none := by
  induction m with
  | nil => rfl
  | cons kv rest ih =>
    obtain ⟨k', v⟩ := kv
    simp only [List.map_cons, List.mem_cons, not_or] at h
    simp only [mapFind]
    rw [if_neg (fun h2 => h.1 h2.symm)]
    exact ih h.2

theorem mapFind_mapErase_self (d : Int) (m : PromiseMap) (hm : goodMap m) :
    mapFind d (mapErase d m) = none := by
  induction m with
  | nil => rfl
  | cons kv rest ih =>
    obtain ⟨k', v⟩ := kv
    unfold goodMap at hm
    simp only [List.map_cons, List.nodup_cons] at hm
    simp only [mapErase]
    by_cases hk : k' = d
    · rw [if_pos hk]
      subst hk
      exact mapFind_notMem_keys k' rest hm.1
    · rw [if_neg hk]
      simp only [mapFind]
      rw [if_neg hk]
      exact ih hm.2

theorem mapFind_none_mapErase (d k : Int) (m : PromiseMap)
    (h : mapFind d m = none) : mapFind d (mapErase k m) = none := by
  induction m with
  | nil => rfl
  | cons kv rest ih =>
    obtain ⟨k', v⟩ := kv
    simp only [mapFind] at h
    by_cases hd : k' = d
    · rw [if_pos hd] at h; exact absurd h (by simp)
    · rw [if_neg hd] at h
      simp only [mapErase]
      by_cases hk : k' = k
      · rw [if_pos hk]; exact h
      · rw [if_neg hk]
        simp only [mapFind]
        rw [if_neg hd]
        exact ih h

theorem mapErase_keys_subset (k : Int) (m : PromiseMap) (x : Int)
    (hx : x ∈ (mapErase k m).map Prod.fst) : x ∈ m.map Prod.fst := by
  induction m with
  | nil => exact hx
  | cons kv rest ih =>
    obtain ⟨k', v⟩ := kv
    simp only [mapErase] at hx
    by_cases hk : k' = k
    · rw [if_pos hk] at hx
      simp only [List.map_cons, List.mem_cons]
      exact Or.inr hx
    · rw [if_neg hk] at hx
      simp only [List.map_cons, List.mem_cons] at hx ⊢
      rcases hx with hx | hx
      · exact Or.inl hx
      · exact Or.inr (ih hx)

theorem goodMap_mapErase (k : Int) (m : PromiseMap) (hm : goodMap m) :
    goodMap (mapErase k m) := by
  induction m with
  | nil => exact hm
  | cons kv rest ih =>
    obtain ⟨k', v⟩ := kv
    unfold goodMap at hm ⊢
    simp only [List.map_cons, List.nodup_cons] at hm
    simp only [mapErase]
    by_cases hk : k' = k
    · rw [if_pos hk]; exact hm.2
    · rw [if_neg hk]
      simp only [List.map_cons, List.nodup_cons]
      exact ⟨fun hmem => hm.1 (mapErase_keys_subset k rest k' hmem), ih hm.2⟩

theorem fulfillOne_preserves_goodMap (acc : List Nat × PromiseMap) (sock : Int)
    (hm : goodMap acc.2) : goodMap (fulfillOne acc sock).2 := by
  unfold fulfillOne
  cases h : mapFind sock acc.2 with
  | none => exact hm
  | some p => exact goodMap_mapErase sock acc.2 hm

theorem fulfillOne_find_ne (acc : List Nat × PromiseMap) (sock d : Int) (h : d ≠ sock) :
    mapFind d (fulfillOne acc sock).2 = mapFind d acc.2 := by
  unfold fulfillOne
  cases hf : mapFind sock acc.2 with
  | none => rfl
  | some p => exact mapFind_mapErase_ne d sock acc.2 h

theorem fulfillOne_mono (acc : List Nat × PromiseMap) (sock : Int) (p : Nat)
    (h : p ∈ acc.1) : p ∈ (fulfillOne acc sock).1 := by
  unfold fulfillOne
  cases hf : mapFind sock acc.2 with
  | none => exact h
  | some q => exact List.mem_append_left _ h

theorem fulfillOne_none (acc : List Nat × PromiseMap) (sock d : Int)
    (h : mapFind d acc.2 = none) : mapFind d (fulfillOne acc sock).2 = none := by
  unfold fulfillOne
  cases hf : mapFind sock acc.2 with
  | none => exact h
  | some q => exact mapFind_none_mapErase d sock acc.2 h

theorem foldl_fulfillOne_find_notMem (ready : List Int) (d : Int) (h : d ∉ ready) :
    ∀ acc : List Nat × PromiseMap,
      mapFind d (ready.foldl fulfillOne acc).2 = mapFind d acc.2 := by
  induction ready with
  | nil => intro acc; rfl
  | cons sock rest ih =>
    intro acc
    simp only [List.mem_cons, not_or] at h
    simp only [List.foldl_cons]
    rw [ih h.2 (fulfillOne acc sock)]
    exact fulfillOne_find_ne acc sock d h.1

theorem foldl_fulfillOne_mono (ready : List Int) (p : Nat) :
    ∀ acc : List Nat × PromiseMap, p ∈ acc.1 → p ∈ (ready.foldl fulfillOne acc).1 := by
  induction ready with
  | nil => intro acc h; exact h
  | cons sock rest ih =>
    intro acc h
    simp only [List.foldl_cons]
    exact ih (fulfillOne acc sock) (fulfillOne_mono acc sock p h)

theorem foldl_fulfillOne_none (ready : List Int) (d : Int) :
    ∀ acc : List Nat × PromiseMap, mapFind d acc.2 = none →
      mapFind d (ready.foldl fulfillOne acc).2 = none := by
  induction ready with
  | nil => intro acc h; exact h
  | cons sock rest ih =>
    intro acc h
    simp only [List.foldl_cons]
    exact ih (fulfillOne acc sock) (fulfillOne_none acc sock d h)

theorem foldl_fulfillOne_mem (ready : List Int) (d : Int) (p : Nat) :
    ∀ acc : List Nat × PromiseMap, goodMap acc.2 → d ∈ ready →
      mapFind d acc.2 = some p →
      p ∈ (ready.foldl fulfillOne acc).1 ∧
      mapFind d (ready.foldl fulfillOne acc).2 = none := by
  induction ready with
  | nil => intro acc _ hmem; exact absurd hmem (List.not_mem_nil d)
  | cons sock rest ih =>
    intro acc hgood hmem hfind
    simp only [List.foldl_cons]
    by_cases hd : sock = d
    · subst hd
      have hstep : fulfillOne acc sock = (acc.1 ++ [p], mapErase sock acc.2) := by
        unfold fulfillOne; rw [hfind]
      rw [hstep]
      constructor
      · exact foldl_fulfillOne_mono rest p _ (List.mem_append_right _ (List.mem_singleton.mpr rfl))
      · exact foldl_fulfillOne_none rest sock _ (mapFind_mapErase_self sock acc.2 hgood)
    · have hmem2 : d ∈ rest := by
        rcases List.mem_cons.mp hmem with h | h
        · exact absurd h.symm hd
        · exact h
      refine ih (fulfillOne acc sock) (fulfillOne_preserves_goodMap acc sock hgood) hmem2 ?_
      rw [fulfillOne_find_ne acc sock d (fun h => hd h.symm)]
      exact hfind

theorem mapFind_mapStore_self (k : Int) (v : Nat) (m : PromiseMap) :
    mapFind k (mapStore k v m) = some v := by
  induction m with
  | nil => simp [mapStore, mapFind]
  | cons kv rest ih =>
    obtain ⟨k', v'⟩ := kv
    simp only [mapStore]
    by_cases hk : k' = k
    · rw [if_pos hk]
      simp [mapFind]
    · rw [if_neg hk]
      simp only [mapFind]
      rw [if_neg hk]
      exact ih

/-! ## Claim theorems -/

/-- C1: the claim says a would-block `readsome` registers for read readiness,
suspends, and retries, never surfacing the condition.  In the source the
`EASYNCRCV` branch is an empty stub: this evaluation shows that a would-block
receive performs no registration and no suspension, and returns the `int`
error value `-1` converted to `size_t` (2^64 - 1) straight to the caller. -/
theorem readsome_wouldblock_stub_surfaces_error :
    (udt_socket.readsome { _udt_socket_id := 7 } 10
        { result := UDT_ERROR, err := { code := EASYNCRCV, message := "no data" } }).result =
      Except.ok (2 ^ 64 - 1) ∧
    (udt_socket.readsome { _udt_socket_id := 7 } 10
        { result := UDT_ERROR, err := { code := EASYNCRCV, message := "no data" } }).trace =
      [SockAction.recvCall 7 10] ∧
    SockAction.registerRead 7 ∉
      (udt_socket.readsome { _udt_socket_id := 7 } 10
        { result := UDT_ERROR, err := { code := EASYNCRCV, message := "no data" } }).trace ∧
    SockAction.suspendTask ∉
      (udt_socket.readsome { _udt_socket_id := 7 } 10
        { result := UDT_ERROR, err := { code := EASYNCRCV, message := "no data" } }).trace := by
  refine ⟨?_, ?_, ?_, ?_⟩ <;> decide

/-- C2: the claim says a `writesome` that is accepted for 0 bytes registers
for write readiness, suspends, and retries rather than returning 0.  In the
source the `bytes_sent == 0` branch is an empty stub: this evaluation shows
that such a call performs no registration and no suspension and returns 0 to
the caller. -/
theorem writesome_zero_accept_stub_returns_zero :
    (udt_socket.writesome { _udt_socket_id := 7 } 100
        { result := 0, err := { code := 0, message := "" } }).result = Except.ok 0 ∧
    (udt_socket.writesome { _udt_socket_id := 7 } 100
        { result := 0, err := { code := 0, message := "" } }).trace =
      [SockAction.sendCall 7 100] ∧
    SockAction.registerWrite 7 ∉
      (udt_socket.writesome { _udt_socket_id := 7 } 100
        { result := 0, err := { code := 0, message := "" } }).trace ∧
    SockAction.suspendTask ∉
      (udt_socket.writesome { _udt_socket_id := 7 } 100
        { result := 0, err := { code := 0, message := "" } }).trace := by
  refine ⟨?_, ?_, ?_, ?_⟩ <;> decide

/-- C3: the claim says every normally returning `readsome`/`writesome`
returns a count between 0 and the requested length.  A would-block receive
returns normally (no exception) with the value `(size_t)(-1) = 2^64 - 1`,
which exceeds the requested length 10. -/
theorem readsome_return_exceeds_requested_length :
    (udt_socket.readsome { _udt_socket_id := 7 } 10
        { result := UDT_ERROR, err := { code := EASYNCRCV, message := "no data" } }).result =
      Except.ok (2 ^ 64 - 1) ∧
    10 < 2 ^ 64 - 1 := by
  refine ⟨?_, ?_⟩ <;> decide

/-- C4: the claim says `eof()` becomes true after a 0-byte non-would-block
read.  The source's `eof()` body is `// TODO...  return false;` and
`readsome` latches nothing: after a 0-byte read (end of stream) `eof()` is
still false, and it is false on every handle whatsoever. -/
theorem eof_never_latched :
    (udt_socket.readsome { _udt_socket_id := 7 } 10
        { result := 0, err := { code := 0, message := "" } }).result = Except.ok 0 ∧
    (udt_socket.readsome { _udt_socket_id := 7 } 10
        { result := 0, err := { code := 0, message := "" } }).state.eof = false ∧
    udt_socket.construct.eof = false := by
  refine ⟨?_, ?_, ?_⟩ <;> decide

/-- C5 counterexample: open a socket (descriptor 3), close it successfully —
`is_open` still returns true, because `close` never resets
`_udt_socket_id`; a second `close`, for which the transport reports error
5004 ("Invalid socket"), raises a `udt_exception` — a second distinguishable
failure.  Both halves of the claim fail. -/
theorem close_twice_counterexample :
    (udt_socket.close (udt_socket.open' udt_socket.construct 3)
        { result := 0, err := { code := 0, message := "" } }).result = Except.ok () ∧
    (udt_socket.close (udt_socket.open' udt_socket.construct 3)
        { result := 0, err := { code := 0, message := "" } }).state.is_open = true ∧
    (udt_socket.close
        (udt_socket.close (udt_socket.open' udt_socket.construct 3)
          { result := 0, err := { code := 0, message := "" } }).state
        { result := UDT_ERROR, err := { code := 5004, message := "Invalid socket" } }).result =
      Except.error { message := "Invalid socket",
                     context := [CtxItem.errMsg "Invalid socket"] } := by
  refine ⟨?_, ?_, ?_⟩ <;> decide

/-- C5 amended: `close()` issues the transport close on the current
descriptor and surfaces a `udt_exception` exactly when the transport's error
slot is nonzero afterwards, but it never modifies the handle: `is_open()` is
unchanged by `close()` (so it stays true after closing an open handle), and
a repeated `close()` re-issues the transport close and surfaces whatever
error the transport then reports. -/
theorem close_state_unchanged_errors_surfaced (s : udt_socket) (o : PrimOutcome) :
    (udt_socket.close s o).state = s ∧
    (udt_socket.close s o).state.is_open = s.is_open ∧
    (udt_socket.close s o).trace = [SockAction.closeCall s._udt_socket_id] ∧
    ((udt_socket.close s o).result =
        Except.error { message := o.err.message,
                       context := [CtxItem.errMsg o.err.message] } ↔
      o.err.code ≠ 0) := by
  by_cases h : o.err.code = 0 <;>
    simp [udt_socket.close, check_udt_errors, h]

/-- C6 counterexample: `open()` is a public operation, yet when the
transport's descriptor allocation fails (`UDT::socket` returns
`INVALID_SOCK` with error 3001 in the last-error slot) the call returns
normally — no `udt_exception` — leaving the handle un-open: a reported
transport failure that is not would-block is silently dropped, refuting the
universally quantified claim. -/
theorem open_drops_allocation_failure :
    (udt_socket.open_step udt_socket.construct
        { result := INVALID_SOCK,
          err := { code := 3001, message := "socket alloc failed" } }).result =
      Except.ok () ∧
    (udt_socket.open_step udt_socket.construct
        { result := INVALID_SOCK,
          err := { code := 3001, message := "socket alloc failed" } }).state.is_open =
      false := by
  refine ⟨?_, ?_⟩ <;> decide

/-- C6 amended: assuming the transport library sets a nonzero last-error
code whenever a primitive reports `UDT::ERROR`, the public operations
`connect_to`, `readsome`, `writesome` and `close` each either return a
normal result or raise a `udt_exception` carrying the captured context:
`connect_to` surfaces every reported connect failure with the remote
endpoint attached, `readsome` surfaces every receive failure other than
would-block (the only condition absorbed on these paths) with the requested
length attached, `writesome` surfaces every send failure, and `close`
surfaces every close-time error.  `open()`, however, performs no error
check: whatever the allocation outcome, it returns normally with no
exception and just stores the returned descriptor. -/
theorem io_ops_surface_failures_open_silent (s : udt_socket) (ep : ip_endpoint)
    (m l : Nat) (oc orc ow ocl : PrimOutcome)
    (hc : oc.result = UDT_ERROR → oc.err.code ≠ 0)
    (hr : orc.result = UDT_ERROR → orc.err.code ≠ 0)
    (hw : ow.result = UDT_ERROR → ow.err.code ≠ 0) :
    (oc.result = UDT_ERROR →
      (udt_socket.connect_to s ep oc).result =
        Except.error { message := oc.err.message,
                       context := [CtxItem.errMsg oc.err.message, CtxItem.remoteEp ep] }) ∧
    (oc.result ≠ UDT_ERROR → (udt_socket.connect_to s ep oc).result = Except.ok ()) ∧
    (orc.result = UDT_ERROR → orc.err.code ≠ EASYNCRCV →
      (udt_socket.readsome s m orc).result =
        Except.error { message := orc.err.message,
                       context := [CtxItem.errMsg orc.err.message, CtxItem.maxLen m] }) ∧
    (ow.result = UDT_ERROR →
      (udt_socket.writesome s l ow).result =
        Except.error { message := ow.err.message,
                       context := [CtxItem.errMsg ow.err.message] }) ∧
    (ocl.err.code ≠ 0 →
      (udt_socket.close s ocl).result =
        Except.error { message := ocl.err.message,
                       context := [CtxItem.errMsg ocl.err.message] }) ∧
    (∀ alloc : PrimOutcome,
      (udt_socket.open_step s alloc).result = Except.ok () ∧
      (udt_socket.open_step s alloc).state = { _udt_socket_id := alloc.result }) := by
  refine ⟨?_, ?_, ?_, ?_, ?_, ?_⟩
  · intro h
    simp [udt_socket.connect_to, check_udt_errors, h, hc h]
  · intro h
    simp [udt_socket.connect_to, check_udt_errors, h]
  · intro h h2
    simp [udt_socket.readsome, check_udt_errors, h, h2, hr h]
  · intro h
    simp [udt_socket.writesome, check_udt_errors, h, hw h]
  · intro h
    simp [udt_socket.close, check_udt_errors, h]
  · intro alloc
    exact ⟨rfl, rfl⟩

/-- C6 witness: a concrete failing `UDT::connect` (error 1001) surfaces as a
`udt_exception` carrying the message and the remote endpoint, while a
concrete failed allocation in `open()` returns normally with no exception. -/
theorem io_ops_surface_failures_open_silent_witness :
    (udt_socket.connect_to { _udt_socket_id := 3 } { addr := 1, port := 2 }
        { result := UDT_ERROR, err := { code := 1001, message := "connect fail" } }).result =
      Except.error { message := "connect fail",
                     context := [CtxItem.errMsg "connect fail",
                                 CtxItem.remoteEp { addr := 1, port := 2 }] } ∧
    (udt_socket.open_step { _udt_socket_id := 3 }
        { result := INVALID_SOCK,
          err := { code := 3002, message := "alloc fail" } }).result = Except.ok () := by
  have h := io_ops_surface_failures_open_silent { _udt_socket_id := 3 } { addr := 1, port := 2 }
    10 20
    { result := UDT_ERROR, err := { code := 1001, message := "connect fail" } }
    { result := UDT_ERROR, err := { code := 2001, message := "recv fail" } }
    { result := UDT_ERROR, err := { code := 3001, message := "send fail" } }
    { result := 0, err := { code := 4001, message := "close fail" } }
    (by decide) (by decide) (by decide)
  exact ⟨h.1 (by decide),
    (h.2.2.2.2.2 { result := INVALID_SOCK,
                   err := { code := 3002, message := "alloc fail" } }).1⟩

/-- C7: in one `poll_loop` iteration, every descriptor reported ready in a
direction has its pending promise in that direction's map fulfilled and its
entry erased, while any descriptor not in that direction's ready set keeps
its entry unchanged; moreover each direction's final map is computed from
that direction's ready set and map alone, so read-side processing never
touches the write map and vice versa.  Hypotheses: the maps satisfy the
`unordered_map` unique-key invariant. -/
theorem poll_iteration_fulfills_ready_preserves_rest
    (read_ready write_ready : List Int) (svc : udt_epoll_service)
    (d : Int) (p : Nat)
    (hr : goodMap svc._read_promises) (hw : goodMap svc._write_promises) :
    (d ∈ read_ready → mapFind d svc._read_promises = some p →
      p ∈ (poll_iteration read_ready write_ready svc).1.1 ∧
      mapFind d (poll_iteration read_ready write_ready svc).2._read_promises = none) ∧
    (d ∉ read_ready →
      mapFind d (poll_iteration read_ready write_ready svc).2._read_promises =
        mapFind d svc._read_promises) ∧
    (d ∈ write_ready → mapFind d svc._write_promises = some p →
      p ∈ (poll_iteration read_ready write_ready svc).1.2 ∧
      mapFind d (poll_iteration read_ready write_ready svc).2._write_promises = none) ∧
    (d ∉ write_ready →
      mapFind d (poll_iteration read_ready write_ready svc).2._write_promises =
        mapFind d svc._write_promises) ∧
    (poll_iteration read_ready write_ready svc).2._read_promises =
      (processReady read_ready svc._read_promises).2 ∧
    (poll_iteration read_ready write_ready svc).2._write_promises =
      (processReady write_ready svc._write_promises).2 := by
  refine ⟨?_, ?_, ?_, ?_, rfl, rfl⟩
  · intro hmem hfind
    exact foldl_fulfillOne_mem read_ready d p ([], svc._read_promises) hr hmem hfind
  · intro hmem
    exact foldl_fulfillOne_find_notMem read_ready d hmem ([], svc._read_promises)
  · intro hmem hfind
    exact foldl_fulfillOne_mem write_ready d p ([], svc._write_promises) hw hmem hfind
  · intro hmem
    exact foldl_fulfillOne_find_notMem write_ready d hmem ([], svc._write_promises)

/-- C7 witness: descriptors 5 and 9 ready for read, with 5 and 6 registered:
promise 11 of descriptor 5 is fulfilled and its entry erased. -/
theorem poll_iteration_fulfills_ready_witness :
    11 ∈ (poll_iteration [5, 9] [9]
        { _read_promises := [(5, 11), (6, 12)], _write_promises := [(9, 13)] }).1.1 ∧
    mapFind 5 (poll_iteration [5, 9] [9]
        { _read_promises := [(5, 11), (6, 12)], _write_promises := [(9, 13)] }).2._read_promises =
      none := by
  have h := poll_iteration_fulfills_ready_preserves_rest [5, 9] [9]
    { _read_promises := [(5, 11), (6, 12)], _write_promises := [(9, 13)] } 5 11
    (by decide) (by decide)
  exact h.1 (by decide) (by decide)

/-- C8 counterexample: the transport rejects the interest registration
(`epoll_add_usock` returns `UDT::ERROR`, error 5002), yet `notify_read` and
`notify_write` raise nothing and store the promise in the map anyway — the
source never inspects the registration's outcome. -/
theorem notify_rejection_counterexample :
    udt_epoll_service.notify_read { _read_promises := [], _write_promises := [] } 5 1
        { result := UDT_ERROR, err := { code := 5002, message := "epoll add rejected" } } =
      Except.ok { _read_promises := [(5, 1)], _write_promises := [] } ∧
    udt_epoll_service.notify_write { _read_promises := [], _write_promises := [] } 5 1
        { result := UDT_ERROR, err := { code := 5002, message := "epoll add rejected" } } =
      Except.ok { _read_promises := [], _write_promises := [(5, 1)] } := by
  refine ⟨?_, ?_⟩ <;> decide

/-- C8 amended: `notify_read` / `notify_write` never fail: whatever outcome
the `epoll_add_usock` registration has — acceptance or rejection — the call
returns normally and the promise is stored in the corresponding map under
the descriptor. -/
theorem notify_stores_signal_unconditionally (svc : udt_epoll_service)
    (sock : Int) (p : Nat) (o : PrimOutcome) :
    udt_epoll_service.notify_read svc sock p o =
      Except.ok { svc with _read_promises := mapStore sock p svc._read_promises } ∧
    udt_epoll_service.notify_write svc sock p o =
      Except.ok { svc with _write_promises := mapStore sock p svc._write_promises } ∧
    mapFind sock (mapStore sock p svc._read_promises) = some p ∧
    mapFind sock (mapStore sock p svc._write_promises) = some p :=
  ⟨rfl, rfl, mapFind_mapStore_self sock p svc._read_promises,
    mapFind_mapStore_self sock p svc._write_promises⟩

/-- Helper for C9: if the cancellation flag is false for the first `k`
loop entries and true at the `k`-th, and the fuel covers `k` iterations,
the loop records exactly `k + 1` observations of the flag — one per loop
entry — the last of which stops it. -/
theorem poll_loop_observations (c : Nat → Bool) (e : Nat → List Int × List Int) :
    ∀ (k fuel i : Nat) (svc : udt_epoll_service),
      (∀ j, j < k → c (i + j) = false) → c (i + k) = true → k < fuel →
      (poll_loop fuel i c e svc).1 = List.replicate k false ++ [true] := by
  intro k
  induction k with
  | zero =>
    intro fuel i svc _ hcancel hfuel
    obtain ⟨f, rfl⟩ : ∃ f, fuel = f + 1 := ⟨fuel - 1, by omega⟩
    have h0 : c i = true := hcancel
    simp [poll_loop, h0]
  | succ k ih =>
    intro fuel i svc hbefore hcancel hfuel
    obtain ⟨f, rfl⟩ : ∃ f, fuel = f + 1 := ⟨fuel - 1, by omega⟩
    have h0 : c i = false := hbefore 0 (Nat.succ_pos k)
    have hrest := ih f (i + 1) ((poll_iteration (e i).1 (e i).2 svc).2)
      (fun j hj => by
        have h2 := hbefore (j + 1) (by omega)
        have heq : i + 1 + j = i + (j + 1) := by omega
        rw [heq]; exact h2)
      (by
        have heq : i + 1 + k = i + (k + 1) := by omega
        rw [heq]; exact hcancel)
      (by omega)
    simp [poll_loop, h0, hrest, List.replicate_succ]

/-- C9: what destruction of the epoll service actually does.  The loop does
observe the cancellation request exactly once per iteration (`k` false
observations then the stopping true one), and the destructor body does
request cancellation — but that is all it does: it contains no wait for the
loop to finish and no release of the epoll multiplexer resource (no
`UDT::epoll_release` call exists in the translation unit). -/
theorem epoll_destruction_cancel_once_per_iteration
    (k fuel i : Nat) (c : Nat → Bool) (e : Nat → List Int × List Int)
    (svc : udt_epoll_service)
    (hbefore : ∀ j, j < k → c (i + j) = false)
    (hcancel : c (i + k) = true) (hfuel : k < fuel) :
    udt_epoll_service.destructorBody = [ServiceAction.cancelLoop] ∧
    ServiceAction.waitForLoop ∉ udt_epoll_service.destructorBody ∧
    ServiceAction.epollRelease ∉ udt_epoll_service.destructorBody ∧
    (poll_loop fuel i c e svc).1 = List.replicate k false ++ [true] :=
  ⟨rfl, by decide, by decide,
    poll_loop_observations c e k fuel i svc hbefore hcancel hfuel⟩

/-- C9 witness: cancellation requested from the third loop entry onwards —
the loop runs two iterations, observing the flag three times in total. -/
theorem epoll_destruction_cancel_once_witness :
    udt_epoll_service.destructorBody = [ServiceAction.cancelLoop] ∧
    ServiceAction.waitForLoop ∉ udt_epoll_service.destructorBody ∧
    ServiceAction.epollRelease ∉ udt_epoll_service.destructorBody ∧
    (poll_loop 5 0 (fun j => decide (2 ≤ j)) (fun _ => ([], []))
        { _read_promises := [], _write_promises := [] }).1 =
      List.replicate 2 false ++ [true] :=
  epoll_destruction_cancel_once_per_iteration 2 5 0 (fun j => decide (2 ≤ j))
    (fun _ => ([], [])) { _read_promises := [], _write_promises := [] }
    (by decide) (by decide) (by decide)

/-- C9 counterexample: the destructor's body consists of the single
cancellation request — it neither waits for the poll loop to finish nor
releases the epoll multiplexer resource, refuting the claimed
cancel-then-wait-then-release shutdown sequence. -/
theorem epoll_destructor_counterexample :
    udt_epoll_service.destructorBody = [ServiceAction.cancelLoop] ∧
    ServiceAction.waitForLoop ∉ udt_epoll_service.destructorBody ∧
    ServiceAction.epollRelease ∉ udt_epoll_service.destructorBody := by
  refine ⟨rfl, ?_, ?_⟩ <;> decide

/-- C10: the destructor of `udt_socket` is exactly a call to `close()`: for
every handle — including a never-opened one, whose descriptor is still
`UDT::INVALID_SOCK` — destruction issues the transport close on the current
descriptor, and whenever the transport reports an error afterwards (nonzero
last-error code) the resulting `udt_exception` propagates out of the
destructor. -/
theorem destructor_always_invokes_close (s : udt_socket) (o : PrimOutcome) :
    udt_socket.destructor s o = udt_socket.close s o ∧
    (udt_socket.destructor s o).trace = [SockAction.closeCall s._udt_socket_id] ∧
    (o.err.code ≠ 0 → (udt_socket.destructor s o).result =
      Except.error { message := o.err.message,
                     context := [CtxItem.errMsg o.err.message] }) := by
  refine ⟨rfl, ?_, ?_⟩
  · simp only [udt_socket.destructor, udt_socket.close]
    cases check_udt_errors o.err <;> rfl
  · intro h
    simp [udt_socket.destructor, udt_socket.close, check_udt_errors, h]

/-- C10 witness: destroying a default-constructed (never-opened) handle
issues `UDT::close(UDT::INVALID_SOCK)`; with the transport reporting error
5004 there, the exception escapes the destructor. -/
theorem destructor_always_invokes_close_witness :
    udt_socket.destructor udt_socket.construct
        { result := UDT_ERROR, err := { code := 5004, message := "Invalid socket" } } =
      udt_socket.close udt_socket.construct
        { result := UDT_ERROR, err := { code := 5004, message := "Invalid socket" } } ∧
    (udt_socket.destructor udt_socket.construct
        { result := UDT_ERROR, err := { code := 5004, message := "Invalid socket" } }).trace =
      [SockAction.closeCall INVALID_SOCK] ∧
    (udt_socket.destructor udt_socket.construct
        { result := UDT_ERROR, err := { code := 5004, message := "Invalid socket" } }).result =
      Except.error { message := "Invalid socket",
                     context := [CtxItem.errMsg "Invalid socket"] } := by
  have h := destructor_always_invokes_close udt_socket.construct
    { result := UDT_ERROR, err := { code := 5004, message := "Invalid socket" } }
  exact ⟨h.1, h.2.1, h.2.2 (by decide)⟩

end UdtModel
